import Mathlib

/-!
Verification of the tabular filter/derive/aggregate pipeline of the
TopStatsDash dashboards, as implemented in `Top_Stats_Dashboard.py`.

The embedding models the pandas dataframe of per-player-per-fight records
as a list of rows.  A row carries the categorical columns `name` and
`profession`, the (day-granular, already normalized by
`df['date'] = pd.to_datetime(df['date']).dt.date`, line 88) `date` column
encoded as a natural number, the numeric columns as an association list
from column name to an exact rational value, and the optional derived
column `custom_metric` written by the Custom Stats tab.

Numeric results of the user-formula evaluator live in `EVal`, an
IEEE-754-style extension of the rationals with two infinities and NaN,
mirroring the float semantics of `df.eval` (division by zero produces a
non-finite value, not an exception).  Finite values are exact rationals;
rounding of finite arithmetic is not modelled, which is irrelevant to the
properties checked here (non-finiteness, error propagation, equality of
exact sums and means on the given data).
-/

/-- IEEE-754-style extended value: a finite rational, +inf, -inf, or NaN.
Models the float64 values produced by `df.eval` in
`calculate_derived_stat` (`Top_Stats_Dashboard.py` lines 27-33). -/
inductive EVal where
  | fin : ℚ → EVal
  | pinf : EVal
  | ninf : EVal
  | nan : EVal
deriving DecidableEq, Repr

namespace EVal

/-- Addition, following IEEE-754 float semantics. -/
def add : EVal → EVal → EVal
  | .nan, _ => .nan
  | _, .nan => .nan
  | .fin a, .fin b => .fin (a + b)
  | .fin _, .pinf => .pinf
  | .fin _, .ninf => .ninf
  | .pinf, .fin _ => .pinf
  | .ninf, .fin _ => .ninf
  | .pinf, .pinf => .pinf
  | .ninf, .ninf => .ninf
  | .pinf, .ninf => .nan
  | .ninf, .pinf => .nan

/-- Negation, following IEEE-754 float semantics. -/
def neg : EVal → EVal
  | .fin a => .fin (-a)
  | .pinf => .ninf
  | .ninf => .pinf
  | .nan => .nan

/-- Subtraction: `x - y = x + (-y)`. -/
def sub (x y : EVal) : EVal := x.add y.neg

/-- Multiplication, following IEEE-754 float semantics
(`0 * inf = NaN`). -/
def mul : EVal → EVal → EVal
  | .nan, _ => .nan
  | _, .nan => .nan
  | .fin a, .fin b => .fin (a * b)
  | .fin a, .pinf => if 0 < a then .pinf else if a < 0 then .ninf else .nan
  | .fin a, .ninf => if 0 < a then .ninf else if a < 0 then .pinf else .nan
  | .pinf, .fin b => if 0 < b then .pinf else if b < 0 then .ninf else .nan
  | .ninf, .fin b => if 0 < b then .ninf else if b < 0 then .pinf else .nan
  | .pinf, .pinf => .pinf
  | .pinf, .ninf => .ninf
  | .ninf, .pinf => .ninf
  | .ninf, .ninf => .pinf

/-- Division, following IEEE-754 float semantics: a nonzero finite value
divided by zero gives a signed infinity, `0 / 0` gives NaN.  Rationals
carry no signed zero, so `finite / inf` collapses to `0` and the sign of
a zero divisor is taken as positive. -/
def div : EVal → EVal → EVal
  | .nan, _ => .nan
  | _, .nan => .nan
  | .fin a, .fin b =>
      if b = 0 then (if 0 < a then .pinf else if a < 0 then .ninf else .nan)
      else .fin (a / b)
  | .fin _, .pinf => .fin 0
  | .fin _, .ninf => .fin 0
  | .pinf, .fin b => if 0 ≤ b then .pinf else .ninf
  | .ninf, .fin b => if 0 ≤ b then .ninf else .pinf
  | .pinf, .pinf => .nan
  | .pinf, .ninf => .nan
  | .ninf, .pinf => .nan
  | .ninf, .ninf => .nan

/-- A value is finite when it is a rational (not ±inf and not NaN). -/
def isFinite : EVal → Bool
  | .fin _ => true
  | _ => false

end EVal

/-- One record of the `player_stats` table: categorical `name` and
`profession`, the normalized day-granular `date`, the numeric columns
(`num_fights`, `duration`, `damage`, ...) as an association list, and the
derived column `custom_metric` (absent at load time, written by the
Custom Stats tab, lines 167-172). -/
structure Row where
  name : String
  profession : String
  date : ℕ
  stats : List (String × ℚ)
  custom_metric : Option EVal
deriving DecidableEq, Repr

/-- A loaded row: every column read from the source, no derived column. -/
def mkRow (n p : String) (d : ℕ) (st : List (String × ℚ)) : Row :=
  ⟨n, p, d, st, none⟩

/-- An ordered table of records sharing the `player_stats` schema. -/
structure Table where
  rows : List Row
deriving DecidableEq, Repr

@[ext] theorem Table.ext {T U : Table} (h : T.rows = U.rows) : T = U := by
  cases T; cases U; cases h; rfl

/-- The sidebar filter selections (`Top_Stats_Dashboard.py` lines 85-95):
multiselected players, multiselected professions, and the list of selected
date endpoints returned by the date-range widget (usually two, one while a
range is half-picked, possibly none). -/
structure FilterSpec where
  players : List String
  professions : List String
  dateRange : List ℕ
deriving DecidableEq, Repr

/-- The filter pipeline of `main` (`Top_Stats_Dashboard.py` lines 98-110):

    filtered_df = df
    if selected_players:
        filtered_df = filtered_df[filtered_df['name'].isin(selected_players)]
    if selected_professions:
        filtered_df = filtered_df[filtered_df['profession'].isin(selected_professions)]
    if len(date_range) == 2:
        filtered_df = filtered_df[(filtered_df['date'] >= start_date) & (filtered_df['date'] <= end_date)]
    elif len(date_range) == 1:
        filtered_df = filtered_df[filtered_df['date'] == start_date]
-/
def filterTable (T : Table) (s : FilterSpec) : Table :=
  let rows1 :=
    if s.players = [] then T.rows
    else T.rows.filter (fun r => decide (r.name ∈ s.players))
  let rows2 :=
    if s.professions = [] then rows1
    else rows1.filter (fun r => decide (r.profession ∈ s.professions))
  let rows3 :=
    match s.dateRange with
    | [a, b] => rows2.filter (fun r => decide (a ≤ r.date) && decide (r.date ≤ b))
    | [a] => rows2.filter (fun r => decide (r.date = a))
    | _ => rows2
  ⟨rows3⟩

/-- The conjunction of the three filter predicates, with the source's
empty-selection conventions folded in: an empty player or profession
selection matches every row, and a date selection with neither one nor
two endpoints matches every row. -/
def specPred (s : FilterSpec) (r : Row) : Bool :=
  (decide (s.players = []) || decide (r.name ∈ s.players)) &&
  ((decide (s.professions = []) || decide (r.profession ∈ s.professions)) &&
   (match s.dateRange with
    | [a, b] => decide (a ≤ r.date) && decide (r.date ≤ b)
    | [a] => decide (r.date = a)
    | _ => true))

/-- The three sequential conditional filters of lines 98-110 amount to one
filter by the conjoined predicate. -/
theorem filterTable_rows_eq (T : Table) (s : FilterSpec) :
    (filterTable T s).rows = T.rows.filter (specPred s) := by
  unfold filterTable specPred
  by_cases hp : s.players = [] <;> by_cases hq : s.professions = [] <;>
    rcases s.dateRange with _ | ⟨a, _ | ⟨b, _ | _⟩⟩ <;>
      simp [hp, hq, List.filter_filter, Bool.and_comm, Bool.and_assoc,
        Bool.and_left_comm]

/-- Membership characterization of the filter pipeline. -/
theorem mem_filterTable (T : Table) (s : FilterSpec) (r : Row) :
    r ∈ (filterTable T s).rows ↔ r ∈ T.rows ∧ specPred s r = true := by
  rw [filterTable_rows_eq]; exact List.mem_filter

/-- The concrete two-row scenario of the spec: dates `2024-01-01` and
`2024-01-02`, encoded as the naturals 20240101 and 20240102. -/
def scenarioRow1 : Row := mkRow "A" "Guardian" 20240101 []

/-- Second scenario row, dated `2024-01-02`. -/
def scenarioRow2 : Row := mkRow "B" "Firebrand" 20240102 []

/-- The two-row scenario table. -/
def scenarioTable : Table := ⟨[scenarioRow1, scenarioRow2]⟩

/-- Claim C1: with a date-range selection collapsed to the single date
`D` (and no player/profession restriction), the filter keeps exactly the
rows whose `date` equals `D` — exact equality on the normalized calendar
date, not a 24-hour window.  In particular the two-row scenario table
with dates 2024-01-01 and 2024-01-02, filtered on the single date
2024-01-01, yields only the first row. -/
theorem c1_single_date_exact_equality :
    (∀ (T : Table) (D : ℕ) (r : Row),
      r ∈ (filterTable T ⟨[], [], [D]⟩).rows ↔ r ∈ T.rows ∧ r.date = D) ∧
    filterTable scenarioTable ⟨[], [], [20240101]⟩ = ⟨[scenarioRow1]⟩ := by
  constructor
  · intro T D r
    rw [mem_filterTable]
    simp [specPred]
  · decide

/-- Claim C4: a filter spec with empty player and profession selections
and a two-endpoint date range that covers the table's full date span is
the identity on the table. -/
theorem c4_trivial_filter_identity (T : Table) (a b : ℕ)
    (hspan : ∀ r ∈ T.rows, a ≤ r.date ∧ r.date ≤ b) :
    filterTable T ⟨[], [], [a, b]⟩ = T := by
  ext1
  rw [filterTable_rows_eq]
  rw [List.filter_eq_self]
  intro r hr
  simp [specPred, (hspan r hr).1, (hspan r hr).2]

/-- Witness for C4: the scenario table is returned unchanged by the
full-span date filter. -/
theorem c4_trivial_filter_identity_witness :
    filterTable scenarioTable ⟨[], [], [20240101, 20240102]⟩ = scenarioTable :=
  c4_trivial_filter_identity scenarioTable 20240101 20240102 (by decide)

/-- Claim C6: the filter pipeline is idempotent — filtering an
already-filtered table with the same spec changes nothing. -/
theorem c6_filter_idempotent (T : Table) (s : FilterSpec) :
    filterTable (filterTable T s) s = filterTable T s := by
  ext1
  rw [filterTable_rows_eq, filterTable_rows_eq, List.filter_filter]
  exact List.filter_congr (fun r _ => Bool.and_self (specPred s r))

/-- Claim C9: for a two-endpoint date range `[a, b]` the date predicate is
inclusive at both ends: a row of the input survives the filter iff it
passes the (possibly empty, hence all-matching) player and profession
selections and `a ≤ date ∧ date ≤ b`. -/
theorem c9_date_range_inclusive (T : Table) (ps prs : List String)
    (a b : ℕ) (r : Row) :
    r ∈ (filterTable T ⟨ps, prs, [a, b]⟩).rows ↔
      r ∈ T.rows ∧ (ps = [] ∨ r.name ∈ ps) ∧
        (prs = [] ∨ r.profession ∈ prs) ∧ a ≤ r.date ∧ r.date ≤ b := by
  rw [mem_filterTable]
  simp [specPred, and_assoc]

/-- Claim C10: when the date selection has neither exactly one nor exactly
two endpoints, no date restriction is applied at all — the filter result
is the same as with an empty date selection, i.e. only the player and
profession predicates act. -/
theorem c10_no_date_restriction (T : Table) (ps prs : List String)
    (dr : List ℕ) (h1 : dr.length ≠ 1) (h2 : dr.length ≠ 2) :
    filterTable T ⟨ps, prs, dr⟩ = filterTable T ⟨ps, prs, []⟩ := by
  ext1
  unfold filterTable
  rcases dr with _ | ⟨a, _ | ⟨b, _ | _⟩⟩ <;> simp_all

/-- Witness for C10: a three-endpoint date selection leaves rows of every
date in place on the scenario table. -/
theorem c10_no_date_restriction_witness :
    (3 : ℕ) ≠ 1 ∧ (3 : ℕ) ≠ 2 ∧
    filterTable scenarioTable ⟨["A"], [], [20240101, 20240101, 20240101]⟩ =
      filterTable scenarioTable ⟨["A"], [], []⟩ :=
  ⟨by decide, by decide,
    c10_no_date_restriction scenarioTable ["A"] []
      [20240101, 20240101, 20240101] (by decide) (by decide)⟩

/-! ## The user-formula evaluator (Custom Stats tab)

`calculate_derived_stat` (lines 27-33) runs `df.eval(formula)` under a
`try/except`: any failure (a syntactically malformed formula string, a
reference to a column the frame does not have, a runtime evaluation
fault) is caught, reported with `st.error`, and `None` is returned.  The
caller (lines 167-172) assigns the result to `filtered_df['custom_metric']`
only when it is not `None`. -/

/-- The arithmetic fragment of the `df.eval` expression language actually
exercised by the dashboard: numeric literals, column references, and the
binary operators `+ - * /`. -/
inductive Expr where
  | num : ℚ → Expr
  | col : String → Expr
  | add : Expr → Expr → Expr
  | sub : Expr → Expr → Expr
  | mul : Expr → Expr → Expr
  | div : Expr → Expr → Expr
deriving DecidableEq, Repr

/-- Row-wise evaluation of an expression, as `df.eval` performs it over
each row of the frame: a column reference reads the numeric column of
that name, and is undefined (pandas raises `UndefinedVariableError`) when
the column is absent. -/
def evalExpr (r : Row) : Expr → Option EVal
  | .num q => some (.fin q)
  | .col c => (r.stats.lookup c).map EVal.fin
  | .add a b => do pure (EVal.add (← evalExpr r a) (← evalExpr r b))
  | .sub a b => do pure (EVal.sub (← evalExpr r a) (← evalExpr r b))
  | .mul a b => do pure (EVal.mul (← evalExpr r a) (← evalExpr r b))
  | .div a b => do pure (EVal.div (← evalExpr r a) (← evalExpr r b))

/-- A user formula string: either it parses to an arithmetic expression,
or it is syntactically malformed (pandas raises a parsing error). -/
inductive Formula where
  | parsed : Expr → Formula
  | malformed : String → Formula
deriving DecidableEq, Repr

/-- `calculate_derived_stat(df, formula)` (lines 27-33): evaluate the
formula over every row; any raised error is caught and `None` is
returned, here `none`. -/
def calculate_derived_stat (T : Table) (f : Formula) : Option (List EVal) :=
  match f with
  | .malformed _ => none
  | .parsed e => T.rows.mapM (fun r => evalExpr r e)

/-- Write the derived value into the row's `custom_metric` column,
leaving every other column of the row untouched. -/
def setCustomMetric (r : Row) (v : EVal) : Row :=
  { r with custom_metric := some v }

/-- `filtered_df['custom_metric'] = result` (line 170): the computed
series is written into the frame as the `custom_metric` column. -/
def assignCustomMetric (T : Table) (vals : List EVal) : Table :=
  ⟨T.rows.zipWith setCustomMetric vals⟩

/-- The Custom Stats step of `main` (lines 167-172): compute the derived
stat and, only when the computation did not fail, store it as
`custom_metric`; on failure the table is left as it was. -/
def applyCustomStat (T : Table) (f : Formula) : Table :=
  match calculate_derived_stat T f with
  | none => T
  | some vals => assignCustomMetric T vals

/-- The formula faults on the table: it is syntactically malformed, or
its evaluation is undefined on some row (unknown column reference). -/
def formulaFaults (T : Table) (f : Formula) : Prop :=
  match f with
  | .malformed _ => True
  | .parsed e => ∃ r ∈ T.rows, evalExpr r e = none

/-- `mapM` over `Option` succeeds with the pointwise map when every
element evaluates successfully. -/
theorem optionMapM_eq_map {α β : Type} (f : α → Option β) (g : α → β) :
    ∀ l : List α, (∀ x ∈ l, f x = some (g x)) → l.mapM f = some (l.map g) := by
  intro l
  induction l with
  | nil => intro _; rfl
  | cons a l ih =>
      intro h
      rw [List.mapM_cons, h a (by simp), ih (fun x hx => h x (by simp [hx]))]
      rfl

/-- `mapM` over `Option` fails as soon as one element fails. -/
theorem optionMapM_eq_none {α β : Type} (f : α → Option β) :
    ∀ l : List α, (∃ x ∈ l, f x = none) → l.mapM f = none := by
  intro l
  induction l with
  | nil => intro h; simp at h
  | cons a l ih =>
      intro h
      rw [List.mapM_cons]
      rcases h with ⟨x, hx, hfx⟩
      rcases List.mem_cons.mp hx with rfl | hx
      · rw [hfx]; rfl
      · cases hfa : f a
        · rfl
        · rw [ih ⟨x, hx, hfx⟩]; rfl

/-- Claim C2: when the derive expression is malformed or references an
unknown column, `calculate_derived_stat` returns the error value `none`
(the exception is caught, not propagated) and the Custom Stats step
leaves the table completely unchanged — no column added or overwritten,
every row and value as before. -/
theorem c2_formula_error_leaves_table (T : Table) (f : Formula)
    (h : formulaFaults T f) :
    calculate_derived_stat T f = none ∧ applyCustomStat T f = T := by
  have hnone : calculate_derived_stat T f = none := by
    cases f with
    | malformed s => rfl
    | parsed e => exact optionMapM_eq_none _ _ h
  refine ⟨hnone, ?_⟩
  unfold applyCustomStat
  rw [hnone]

/-- The spec's failing formula `"foo + 1"`, referencing a column the
table does not have. -/
def fooFormula : Formula := .parsed (.add (.col "foo") (.num 1))

/-- A one-row table with only the `damage` column (no `foo`). -/
def c2Table : Table := ⟨[mkRow "A" "Guardian" 20240101 [("damage", 100)]]⟩

/-- Witness for C2: on the one-row table, `"foo + 1"` faults, the
computation returns `none`, and the table is unchanged. -/
theorem c2_formula_error_leaves_table_witness :
    formulaFaults c2Table fooFormula ∧
      (calculate_derived_stat c2Table fooFormula = none ∧
        applyCustomStat c2Table fooFormula = c2Table) :=
  have hf : formulaFaults c2Table fooFormula :=
    ⟨mkRow "A" "Guardian" 20240101 [("damage", 100)], by decide, by decide⟩
  ⟨hf, c2_formula_error_leaves_table c2Table fooFormula hf⟩

/-- The spec's ratio formula `"damage / duration"`. -/
def ratioFormula : Formula := .parsed (.div (.col "damage") (.col "duration"))

/-- Claim C5: on a table whose rows all carry finite `damage` and
`duration` columns, deriving `"damage / duration"` never faults: the
computation succeeds on every row, the Custom Stats step writes exactly
the per-row quotient into `custom_metric` while leaving every other
column of every row unchanged, a row with `duration = 0` receives a
non-finite value, and every row with `duration ≠ 0` receives the exact
finite quotient. -/
theorem c5_div_by_zero_nonfinite (T : Table) (dmg dur : Row → ℚ)
    (h : ∀ r ∈ T.rows, r.stats.lookup "damage" = some (dmg r) ∧
          r.stats.lookup "duration" = some (dur r)) :
    calculate_derived_stat T ratioFormula =
      some (T.rows.map (fun r => EVal.div (.fin (dmg r)) (.fin (dur r)))) ∧
    applyCustomStat T ratioFormula =
      ⟨T.rows.map (fun r =>
        setCustomMetric r (EVal.div (.fin (dmg r)) (.fin (dur r))))⟩ ∧
    (∀ r ∈ T.rows, dur r = 0 →
      (EVal.div (.fin (dmg r)) (.fin (dur r))).isFinite = false) ∧
    (∀ r ∈ T.rows, dur r ≠ 0 →
      EVal.div (.fin (dmg r)) (.fin (dur r)) = .fin (dmg r / dur r)) := by
  have hcalc : calculate_derived_stat T ratioFormula =
      some (T.rows.map (fun r => EVal.div (.fin (dmg r)) (.fin (dur r)))) := by
    refine optionMapM_eq_map _ _ _ (fun r hr => ?_)
    simp [evalExpr, (h r hr).1, (h r hr).2]
  refine ⟨hcalc, ?_, ?_, ?_⟩
  · unfold applyCustomStat
    rw [hcalc]
    show assignCustomMetric T _ = _
    unfold assignCustomMetric
    apply Table.ext
    rw [List.zipWith_map_right, List.zipWith_same]
  · intro r _ hz
    rw [hz]
    simp only [EVal.div]
    split_ifs <;> simp_all [EVal.isFinite]
  · intro r _ hz
    simp only [EVal.div]
    rw [if_neg hz]

/-- A two-row table for the C5 witness: row `"A"` has `duration = 0`,
row `"B"` has `duration = 10`. -/
def c5Table : Table :=
  ⟨[mkRow "A" "Guardian" 20240101 [("damage", 100), ("duration", 0)],
    mkRow "B" "Guardian" 20240101 [("damage", 50), ("duration", 10)]]⟩

/-- The damage column of the C5 witness table, as a function of the row. -/
def c5dmg (r : Row) : ℚ := if r.name = "A" then 100 else 50

/-- The duration column of the C5 witness table, as a function of the
row. -/
def c5dur (r : Row) : ℚ := if r.name = "A" then 0 else 10

/-- Witness for C5: the two-row table satisfies the schema hypothesis and
the division-by-zero row yields a non-finite value while the other row
gets its exact quotient. -/
theorem c5_div_by_zero_nonfinite_witness :
    (∀ r ∈ c5Table.rows, r.stats.lookup "damage" = some (c5dmg r) ∧
        r.stats.lookup "duration" = some (c5dur r)) ∧
    (calculate_derived_stat c5Table ratioFormula =
        some (c5Table.rows.map (fun r =>
          EVal.div (.fin (c5dmg r)) (.fin (c5dur r)))) ∧
      applyCustomStat c5Table ratioFormula =
        ⟨c5Table.rows.map (fun r =>
          setCustomMetric r (EVal.div (.fin (c5dmg r)) (.fin (c5dur r))))⟩ ∧
      (∀ r ∈ c5Table.rows, c5dur r = 0 →
        (EVal.div (.fin (c5dmg r)) (.fin (c5dur r))).isFinite = false) ∧
      (∀ r ∈ c5Table.rows, c5dur r ≠ 0 →
        EVal.div (.fin (c5dmg r)) (.fin (c5dur r)) =
          .fin (c5dmg r / c5dur r))) :=
  ⟨by decide, c5_div_by_zero_nonfinite c5Table c5dmg c5dur (by decide)⟩

/-! ## Mutation of the loaded table (claim C3)

In `main`, line 98 `filtered_df = df` binds `filtered_df` to the very
same object as the loaded frame.  Each filter branch that executes
(nonempty player selection, nonempty profession selection, a date
selection with exactly one or exactly two endpoints) rebinds
`filtered_df` to a fresh frame, because pandas boolean-mask selection
returns a new object.  Line 170 `filtered_df['custom_metric'] = result`
then writes the derived column in place into `filtered_df` — which is
the loaded frame itself whenever no filter branch executed.  The state
below tracks both frames and whether they are one object. -/

/-- The pair of frames held by `main` after the filter block: the loaded
frame `df`, the current `filtered_df`, and whether the two names refer
to the same object (no filter branch executed). -/
structure DashState where
  df : Table
  filtered : Table
  aliased : Bool
deriving DecidableEq, Repr

/-- Lines 98-110 of `main`: bind `filtered_df` to the loaded frame and
run the conditional filters.  `filtered_df` remains the same object as
`df` exactly when no branch executed: empty player selection, empty
profession selection, and a date selection with neither one nor two
endpoints. -/
def applyFilters (df : Table) (s : FilterSpec) : DashState :=
  { df := df,
    filtered := filterTable df s,
    aliased := decide (s.players = [] ∧ s.professions = [] ∧
      s.dateRange.length ≠ 1 ∧ s.dateRange.length ≠ 2) }

/-- Lines 167-172 of `main`: compute the derived stat from `filtered_df`
and, when it did not fail, assign `filtered_df['custom_metric'] = result`
in place.  When `filtered_df` is the loaded frame itself, the loaded
frame receives the new column too. -/
def customStatStep (st : DashState) (f : Formula) : DashState :=
  match calculate_derived_stat st.filtered f with
  | none => st
  | some vals =>
      let newFiltered := assignCustomMetric st.filtered vals
      { df := if st.aliased then newFiltered else st.df,
        filtered := newFiltered,
        aliased := st.aliased }

/-- A one-row loaded table used to exhibit the C3 mutation. -/
def c3Table : Table := ⟨[mkRow "A" "Guardian" 20240101 [("damage", 100)]]⟩

/-- The all-empty filter spec: no player, no profession, no date
endpoint selected — no filter branch executes. -/
def emptySpec : FilterSpec := ⟨[], [], []⟩

/-- A well-formed formula over an existing column. -/
def damageFormula : Formula := .parsed (.col "damage")

/-- Counterexample to claim C3 as stated: with the all-empty filter spec
`filtered_df` is the loaded frame itself, and a successful Custom Stats
calculation writes the `custom_metric` column into the loaded table in
place — after the operation the loaded table is no longer identical to
its load-time value. -/
theorem c3_counterexample :
    (customStatStep (applyFilters c3Table emptySpec) damageFormula).df ≠
      c3Table := by decide

/-- Claim C3 as amended: whenever at least one filter predicate actually
applies (a nonempty player selection, a nonempty profession selection,
or a date selection with one or two endpoints), `filtered_df` is a new
frame, and neither the filter step nor the Custom Stats step changes the
loaded table: it stays identical to its load-time value. -/
theorem c3_no_mutation_when_filtered (T : Table) (s : FilterSpec)
    (f : Formula)
    (h : s.players ≠ [] ∨ s.professions ≠ [] ∨
      s.dateRange.length = 1 ∨ s.dateRange.length = 2) :
    (applyFilters T s).df = T ∧
      (customStatStep (applyFilters T s) f).df = T := by
  have ha : (applyFilters T s).aliased = false := by
    simp only [applyFilters, decide_eq_false_iff_not]
    rintro ⟨h1, h2, h3, h4⟩
    rcases h with h | h | h | h <;> contradiction
  refine ⟨rfl, ?_⟩
  unfold customStatStep
  cases hc : calculate_derived_stat (applyFilters T s).filtered f with
  | none => rfl
  | some vals =>
      rw [ha]
      simp only [Bool.false_eq_true, if_false]
      rfl

/-- Witness for the amended C3: with a nonempty player selection the
loaded one-row table is untouched by the Custom Stats step. -/
theorem c3_no_mutation_when_filtered_witness :
    (applyFilters c3Table ⟨["A"], [], []⟩).df = c3Table ∧
      (customStatStep (applyFilters c3Table ⟨["A"], [], []⟩)
        damageFormula).df = c3Table :=
  c3_no_mutation_when_filtered c3Table ⟨["A"], [], []⟩ damageFormula
    (by left; decide)

/-! ## Aggregation (Performance Trends tab) and the Overview metrics

Line 139 of `main`:

    trend_df = filtered_df.groupby(['date', 'name', 'profession'])[metric].mean().reset_index()

and lines 120-124:

    st.metric("Total Fights", int(filtered_df['num_fights'].sum()))
    st.metric("Total Duration (s)", int(filtered_df['duration'].sum()))
    st.metric("Unique Players", len(filtered_df['name'].unique()))
-/

/-- `df.groupby(group_cols)[metric].mean()`: group the rows by a key
drawn from each row and reduce the metric column of each group by its
arithmetic mean; one output row per distinct key, keys in first-seen
order.  A missing metric column raises `KeyError` in pandas, here
`none`. -/
def groupbyMean {K : Type} [DecidableEq K] (key : Row → K) (metric : String)
    (rows : List Row) : Option (List (K × ℚ)) := do
  let pairs ← rows.mapM (fun r => (r.stats.lookup metric).map (fun v => (key r, v)))
  pure (((pairs.map Prod.fst).dedup).map (fun k =>
    (k, ((pairs.filter (fun p => decide (p.1 = k))).map Prod.snd).sum /
      ((((pairs.filter (fun p => decide (p.1 = k))).map Prod.snd).length : ℚ)))))

/-- The aggregation of line 139: group by the combination
`(date, name, profession)` and take the mean of the chosen metric. -/
def trendAggregate (T : Table) (metric : String) :
    Option (List ((ℕ × String × String) × ℚ)) :=
  groupbyMean (fun r => (r.date, r.name, r.profession)) metric T.rows

/-- Claim C7: on rows whose metric column holds the value `mval r`, the
groupby-mean aggregation succeeds and yields exactly one output row per
distinct group-key value — the output keys are the distinct input keys,
without duplicates — and the value attached to each key is the
arithmetic mean (sum divided by count) of the metric over exactly the
rows of that group. -/
theorem c7_groupby_mean {K : Type} [DecidableEq K] (key : Row → K)
    (metric : String) (mval : Row → ℚ) (rows : List Row)
    (h : ∀ r ∈ rows, r.stats.lookup metric = some (mval r)) :
    ∃ out, groupbyMean key metric rows = some out ∧
      out.map Prod.fst = (rows.map key).dedup ∧
      (out.map Prod.fst).Nodup ∧
      (∀ k, k ∈ out.map Prod.fst ↔ k ∈ rows.map key) ∧
      ∀ kv ∈ out,
        kv.2 = ((rows.filter (fun r => decide (key r = kv.1))).map mval).sum /
               (((rows.filter (fun r => decide (key r = kv.1))).length : ℚ)) := by
  have hmapM :
      rows.mapM (fun r => (r.stats.lookup metric).map (fun v => (key r, v))) =
        some (rows.map (fun r => (key r, mval r))) := by
    refine optionMapM_eq_map _ _ _ (fun r hr => ?_)
    rw [h r hr]; rfl
  have hfst : (rows.map (fun r => (key r, mval r))).map Prod.fst =
      rows.map key := by
    rw [List.map_map]; rfl
  have hgrp : ∀ k : K,
      ((rows.map (fun r => (key r, mval r))).filter
          (fun p => decide (p.1 = k))).map Prod.snd =
        (rows.filter (fun r => decide (key r = k))).map mval := by
    intro k
    rw [List.filter_map, List.map_map]
    rfl
  set out := ((rows.map key).dedup).map (fun k =>
      (k, ((rows.filter (fun r => decide (key r = k))).map mval).sum /
        (((rows.filter (fun r => decide (key r = k))).length : ℚ)))) with hout
  have hofst : out.map Prod.fst = (rows.map key).dedup := by
    rw [hout, List.map_map]
    exact List.map_id _
  refine ⟨out, ?_, hofst, by rw [hofst]; exact List.nodup_dedup _,
    fun k => by rw [hofst]; exact List.mem_dedup, ?_⟩
  · unfold groupbyMean
    rw [hmapM]
    refine congrArg some ?_
    rw [hout, hfst]
    simp only [hgrp, List.length_map]
  · intro kv hkv
    rw [hout] at hkv
    rcases List.mem_map.mp hkv with ⟨k, _, rfl⟩
    rfl

/-- The spec's two-Guardian scenario table for C7: damage 100 and 200. -/
def c7Table : Table :=
  ⟨[mkRow "A" "Guardian" 20240101 [("damage", 100)],
    mkRow "B" "Guardian" 20240101 [("damage", 200)]]⟩

/-- The damage column of the C7 scenario, as a function of the row. -/
def c7mval (r : Row) : ℚ := (r.stats.lookup "damage").getD 0

/-- Witness for C7: grouping the two-Guardian table by profession on
damage yields the single row `("Guardian", 150)`. -/
theorem c7_groupby_mean_witness :
    (∀ r ∈ c7Table.rows, r.stats.lookup "damage" = some (c7mval r)) ∧
    (∃ out, groupbyMean Row.profession "damage" c7Table.rows = some out ∧
      out.map Prod.fst = (c7Table.rows.map Row.profession).dedup ∧
      (out.map Prod.fst).Nodup ∧
      (∀ k, k ∈ out.map Prod.fst ↔ k ∈ c7Table.rows.map Row.profession) ∧
      ∀ kv ∈ out,
        kv.2 = ((c7Table.rows.filter
            (fun r => decide (Row.profession r = kv.1))).map c7mval).sum /
          (((c7Table.rows.filter
            (fun r => decide (Row.profession r = kv.1))).length : ℚ))) ∧
    groupbyMean Row.profession "damage" c7Table.rows =
      some [("Guardian", 150)] :=
  ⟨by decide,
    c7_groupby_mean Row.profession "damage" c7mval c7Table.rows (by decide),
    by norm_num [groupbyMean, c7Table, mkRow, List.lookup, List.mapM.loop,
      List.dedup, List.pwFilter]⟩

/-- Python `int()` applied to a numeric value: truncation toward zero. -/
def ratTrunc (q : ℚ) : ℤ := if 0 ≤ q then ⌊q⌋ else ⌈q⌉

/-- The Overview metrics of lines 120-124: `int()` of the sum of the
`num_fights` column, `int()` of the sum of the `duration` column, and
the number of distinct `name` values (`len(df['name'].unique())`).  A
missing column raises `KeyError` in pandas, here `none`. -/
def summarize (T : Table) : Option (ℤ × ℤ × ℕ) := do
  let nf ← T.rows.mapM (fun r => r.stats.lookup "num_fights")
  let du ← T.rows.mapM (fun r => r.stats.lookup "duration")
  pure (ratTrunc nf.sum, ratTrunc du.sum,
    ((T.rows.map Row.name).dedup).length)

/-- A one-row table with the fractional duration 21/2 = 10.5 s. -/
def c8Table : Table :=
  ⟨[mkRow "A" "Guardian" 20240101 [("num_fights", 2), ("duration", 21/2)]]⟩

/-- Counterexample to claim C8 as stated: on a table whose single row
has `duration = 10.5`, the Overview reports `total_duration = 10` — the
`int()` truncation of the sum — while the sum of the `duration` column
is `10.5`, so `summarize` does not return the sum of `duration`. -/
theorem c8_counterexample :
    summarize c8Table = some (2, 10, 1) ∧
    (c8Table.rows.map (fun r => (r.stats.lookup "duration").getD 0)).sum =
      21 / 2 ∧
    ((10 : ℚ) ≠ 21 / 2) := by
  refine ⟨?_, ?_, by norm_num⟩
  · simp [summarize, c8Table, mkRow, ratTrunc, List.lookup,
      List.mapM.loop, List.dedup, List.pwFilter]
    norm_num
  · simp [c8Table, mkRow, List.lookup]

/-- Claim C8 as amended: `summarize` is a pure reduction returning the
`int()` truncation of the sum of `num_fights` as `total_fights`, the
`int()` truncation of the sum of `duration` as `total_duration` (equal
to the plain sums whenever the columns are integer-valued, as in the
spec's example), and the number of distinct `name` values as
`unique_player_count`. -/
theorem c8_summarize_truncated_sums (T : Table) (nfval duval : Row → ℚ)
    (h : ∀ r ∈ T.rows, r.stats.lookup "num_fights" = some (nfval r) ∧
          r.stats.lookup "duration" = some (duval r)) :
    summarize T = some (ratTrunc ((T.rows.map nfval).sum),
      ratTrunc ((T.rows.map duval).sum),
      (T.rows.map Row.name).toFinset.card) := by
  have h1 : T.rows.mapM (fun r => r.stats.lookup "num_fights") =
      some (T.rows.map nfval) :=
    optionMapM_eq_map _ _ _ (fun r hr => (h r hr).1)
  have h2 : T.rows.mapM (fun r => r.stats.lookup "duration") =
      some (T.rows.map duval) :=
    optionMapM_eq_map _ _ _ (fun r hr => (h r hr).2)
  unfold summarize
  rw [h1, h2, List.card_toFinset]
  rfl

/-- The spec's example table for C8: `num_fights = [2, 3]`,
`duration = [10, 20]`, two distinct names. -/
def c8wTable : Table :=
  ⟨[mkRow "A" "Guardian" 20240101 [("num_fights", 2), ("duration", 10)],
    mkRow "B" "Guardian" 20240101 [("num_fights", 3), ("duration", 20)]]⟩

/-- The num_fights column of the C8 example, as a function of the row. -/
def c8nf (r : Row) : ℚ := (r.stats.lookup "num_fights").getD 0

/-- The duration column of the C8 example, as a function of the row. -/
def c8du (r : Row) : ℚ := (r.stats.lookup "duration").getD 0

/-- Witness for the amended C8: on the spec's example the truncated sums
are the plain sums — `total_fights = 5`, `total_duration = 30`,
`unique_player_count = 2`. -/
theorem c8_summarize_truncated_sums_witness :
    (∀ r ∈ c8wTable.rows,
        r.stats.lookup "num_fights" = some (c8nf r) ∧
        r.stats.lookup "duration" = some (c8du r)) ∧
    summarize c8wTable = some (ratTrunc ((c8wTable.rows.map c8nf).sum),
      ratTrunc ((c8wTable.rows.map c8du).sum),
      (c8wTable.rows.map Row.name).toFinset.card) ∧
    summarize c8wTable = some (5, 30, 2) :=
  ⟨by decide,
    c8_summarize_truncated_sums c8wTable c8nf c8du (by decide),
    by simp [summarize, c8wTable, mkRow, ratTrunc, List.lookup,
      List.mapM.loop, List.dedup, List.pwFilter]⟩
